import Mathlib

/-!
Shallow embedding of the notification reconciliation engine of
`src/index.ts` (a Twitch-to-Telegram live-notification bot) together with
the timeout helper of `src/utils.ts`, and proofs of the specification
claims about them.

Modelling conventions:
* Destination ids (Telegram chat ids) are `Int`; message ids are `Nat`.
* The JS objects `state.channels` / `state.groups` are association lists
  in enumeration order; `setEntry` models `obj[k] = v` (update in place
  when the key exists, append otherwise) and JS `delete` is `List.filter`.
  Keys written by the program are the decimal renderings of numeric chat
  ids, so `parseInt(key)` is the identity in this model.
* A JS value of type `number | null` is `Option Nat`; the truthiness test
  `if (!x)` on such a value is `truthy` (false for `null` and for `0`).
* The Telegram API is a `Dispatcher` record of result-returning
  functions; a rejected promise is `Except.error`.  Awaiting a rejected
  call without `try`/`catch` aborts `update` (outcome field `ok := false`)
  while keeping the in-place state mutations already performed, exactly as
  a thrown exception leaves the mutated `state` object behind.  Only the
  `unpinChatMessage` call sits inside a `try`/`catch` in the source, so its
  result is discarded and never aborts anything.
* `statusDb.write()` is recorded as the `Action.persist` trace marker and
  the snapshot written is appended to the `writes` field.
* The random link token `crypto.randomBytes(5).toString('hex')` is taken
  as an input `rid`, and `stream.userName` as part of the observation.
-/

namespace Cerbero

/-- One Telegram-side effect requested by the reconciler, in order.
`persist` marks a `statusDb.write()`; `reportMissing` is the
`console.error('Missing last message id in status! Skip...')` report. -/
inductive Action where
  | send (dest : Int) (text : String)
  | edit (dest : Int) (msgId : Nat) (text : String)
  | pin (dest : Int) (msgId : Nat)
  | unpin (dest : Int) (msgId : Nat)
  | persist
  | reportMissing
deriving Repr, DecidableEq

/-- `ChannelState` of `src/index.ts`: the per-entity persisted record. -/
structure ChannelState where
  lastStreamId : Option String
  lastStreamTitle : Option String
  channels : List (Int × Option Nat)
  groups : List (Int × Option Nat)
deriving Repr, DecidableEq

/-- `ConfigChannelEntry` of `src/index.ts` (the `bot` field is routing
only and does not affect the reconciliation logic). -/
structure ConfigChannelEntry where
  groupIds : List Int
  channelIds : List Int
deriving Repr, DecidableEq

/-- The messaging-platform calls used by `update`, as result-returning
functions; `Except.error` models a rejected promise. -/
structure Dispatcher where
  sendMessage : Int → String → Except Unit Nat
  editMessageText : Int → Nat → String → Except Unit Unit
  pinChatMessage : Int → Nat → Except Unit Unit
  unpinChatMessage : Int → Nat → Except Unit Unit

/-- What one cycle observes from the Twitch side: an empty
`getUsersByNames` result, an offline channel, or a live stream. -/
inductive Observation where
  | unresolved
  | offline
  | online (streamId : String) (title : String) (userName : String)
deriving Repr, DecidableEq

/-- Result of one `update` cycle: the entity state as mutated in place
(kept even when the cycle aborts on a thrown dispatcher error), the
dispatcher calls attempted in order, the snapshots passed to
`statusDb.write()`, and whether the cycle returned normally. -/
structure CycleOutcome where
  state : ChannelState
  trace : List Action
  writes : List ChannelState
  ok : Bool
deriving Repr, DecidableEq

/-- JS truthiness of a `number | null` value: `null` and `0` are falsy. -/
def truthy : Option Nat → Bool
  | none => false
  | some n => n != 0

/-- The numeric value behind a truthy `number | null` (0 as a default). -/
def midVal (v : Option Nat) : Nat := v.getD 0

/-- `obj[k] = v` on a JS object modelled as an association list: update
the existing key in place, or append a fresh one. -/
def setEntry (m : List (Int × Option Nat)) (k : Int) (v : Option Nat) :
    List (Int × Option Nat) :=
  if m.any (fun e => e.1 == k) then
    m.map (fun e => if e.1 = k then (k, v) else e)
  else
    m ++ [(k, v)]

/-- Key lookup on the association list (`obj[k]`). -/
def lookupKey : List (Int × Option Nat) → Int → Option (Option Nat)
  | [], _ => none
  | e :: rest, k => if e.1 = k then some e.2 else lookupKey rest k

/-- Reachable-state invariant: recorded message ids are never the number
0 (Telegram message ids are positive, and the program only ever stores a
returned message id or `null`), so JS truthiness coincides with
non-nullness. -/
def wfValues (m : List (Int × Option Nat)) : Bool :=
  m.all (fun e => e.2 != some 0)

/-- `escape` of the html-escaper package, character by character
(codes 38 38, 60 60, 62 62, 39 39, 34 34 are the five characters of the
regular expression it replaces). -/
def escapeChar (c : Char) : String :=
  if c.toNat = 38 then "&amp;"
  else if c.toNat = 60 then "&lt;"
  else if c.toNat = 62 then "&gt;"
  else if c.toNat = 39 then "&#39;"
  else if c.toNat = 34 then "&quot;"
  else String.singleton c

/-- `escape(title)` from html-escaper, as used on line 143 of the source. -/
def escape (s : String) : String :=
  String.join (s.data.map escapeChar)

/-- The `streamLinkHtml` template literal (line 142), with the random
bytes rendered as the input `rid`. -/
def streamLinkHtml (userName rid : String) : String :=
  "<a href=\x27https://twitch.tv/" ++ userName ++ "?rid=" ++ rid ++
    "\x27>twitch.tv/" ++ userName ++ "</a>"

/-- The `message` template literal (line 143). -/
def formatMessage (title userName rid : String) : String :=
  escape title ++ " <b>| IN ONDA |</b> " ++ streamLinkHtml userName rid

/-- Offline branch loop (lines 93-125): iterate the snapshot of
`Object.entries(state.groups)`; for each truthy message id, attempt the
unpin (its result is discarded by the `try`/`catch`), null the entry and
write the database.  The dispatcher's answer cannot influence anything,
so it is not consulted. -/
def offlineLoop : List (Int × Option Nat) → ChannelState → CycleOutcome
  | [], st => ⟨st, [], [], true⟩
  | e :: rest, st =>
    if truthy e.2 then
      let st1 : ChannelState := { st with groups := setEntry st.groups e.1 none }
      let r := offlineLoop rest st1
      ⟨r.state, Action.unpin e.1 (midVal e.2) :: Action.persist :: r.trace,
        st1 :: r.writes, r.ok⟩
    else
      offlineLoop rest st

/-- Result of one `editMessageText` loop of the title-change branch. -/
structure EditOutcome where
  trace : List Action
  changes : Bool
  ok : Bool
deriving Repr, DecidableEq

/-- One edit loop of the title-change branch (lines 149-158 for channels,
159-168 for groups): falsy recorded ids are skipped and reported; a
rejected edit aborts the cycle. -/
def editLoop (d : Dispatcher) (msg : String) : List (Int × Option Nat) → EditOutcome
  | [] => ⟨[], false, true⟩
  | e :: rest =>
    if truthy e.2 then
      match d.editMessageText e.1 (midVal e.2) msg with
      | .error _ => ⟨[Action.edit e.1 (midVal e.2) msg], false, false⟩
      | .ok _ =>
        let r := editLoop d msg rest
        ⟨Action.edit e.1 (midVal e.2) msg :: r.trace, true, r.ok⟩
    else
      let r := editLoop d msg rest
      ⟨Action.reportMissing :: r.trace, r.changes, r.ok⟩

/-- New-stream fan-out over the configured direct channels
(lines 194-199): send, record the returned message id; a rejected send
aborts the cycle. -/
def sendChannelsLoop (d : Dispatcher) (msg : String) :
    List Int → ChannelState → CycleOutcome
  | [], st => ⟨st, [], [], true⟩
  | c :: rest, st =>
    match d.sendMessage c msg with
    | .error _ => ⟨st, [Action.send c msg], [], false⟩
    | .ok mid =>
      let st1 : ChannelState := { st with channels := setEntry st.channels c (some mid) }
      let r := sendChannelsLoop d msg rest st1
      ⟨r.state, Action.send c msg :: r.trace, r.writes, r.ok⟩

/-- New-stream fan-out over the configured groups (lines 200-218): send,
record the returned id, then pin it; a rejected send or pin aborts the
cycle. -/
def sendGroupsLoop (d : Dispatcher) (msg : String) :
    List Int → ChannelState → CycleOutcome
  | [], st => ⟨st, [], [], true⟩
  | g :: rest, st =>
    match d.sendMessage g msg with
    | .error _ => ⟨st, [Action.send g msg], [], false⟩
    | .ok mid =>
      let st1 : ChannelState := { st with groups := setEntry st.groups g (some mid) }
      match d.pinChatMessage g mid with
      | .error _ => ⟨st1, [Action.send g msg, Action.pin g mid], [], false⟩
      | .ok _ =>
        let r := sendGroupsLoop d msg rest st1
        ⟨r.state, Action.send g msg :: Action.pin g mid :: r.trace, r.writes, r.ok⟩

/-- The cleanup of removed destinations (lines 179-191), verbatim from
the source: the first loop prunes `state.channels` against
`channelConfig.channelIds`; the second loop iterates the keys of
`state.groups` but ALSO tests membership in `channelConfig.channelIds`
and ALSO deletes from `state.channels` — `state.groups` is never
pruned. -/
def cleanupRemoved (cfg : ConfigChannelEntry) (st : ChannelState) : ChannelState :=
  let st1 : ChannelState :=
    { st with channels := st.channels.filter (fun e => cfg.channelIds.contains e.1) }
  let badKeys := (st1.groups.map Prod.fst).filter (fun g => !cfg.channelIds.contains g)
  { st1 with channels := st1.channels.filter (fun e => !badKeys.contains e.1) }

/-- The title-change branch (lines 145-173): edit the recorded messages
of `state.channels`, then of `state.groups`; write only when at least
one edit went through.  The state passed in already carries the new
title (line 140 runs before the branch test). -/
def onlineEdit (d : Dispatcher) (msg : String) (st1 : ChannelState) : CycleOutcome :=
  let rc := editLoop d msg st1.channels
  if rc.ok then
    let rg := editLoop d msg st1.groups
    if rg.ok then
      if rc.changes || rg.changes then
        ⟨st1, rc.trace ++ rg.trace ++ [Action.persist], [st1], true⟩
      else
        ⟨st1, rc.trace ++ rg.trace, [], true⟩
    else
      ⟨st1, rc.trace ++ rg.trace, [], false⟩
  else
    ⟨st1, rc.trace, [], false⟩

/-- The new-stream branch (lines 176-220): cleanup of removed
destinations, fan-out over the configured channels, then over the
configured groups, then one write.  The state passed in already carries
the new title and the new stream id (lines 140 and 174). -/
def onlineNew (d : Dispatcher) (cfg : ConfigChannelEntry) (msg : String)
    (st2 : ChannelState) : CycleOutcome :=
  let st3 := cleanupRemoved cfg st2
  let rc := sendChannelsLoop d msg cfg.channelIds st3
  if rc.ok then
    let rg := sendGroupsLoop d msg cfg.groupIds rc.state
    if rg.ok then
      ⟨rg.state, rc.trace ++ rg.trace ++ [Action.persist], [rg.state], true⟩
    else
      ⟨rg.state, rc.trace ++ rg.trace, [], false⟩
  else
    ⟨rc.state, rc.trace, [], false⟩

/-- The `update` function of `src/index.ts` (lines 70-221), as a pure
cycle over one observation.  `rid` is the random link token drawn for
this render. -/
def update (d : Dispatcher) (cfg : ConfigChannelEntry) (st : ChannelState)
    (obs : Observation) (rid : String) : CycleOutcome :=
  match obs with
  | .unresolved => ⟨st, [], [], true⟩
  | .offline => offlineLoop st.groups st
  | .online sid title userName =>
    if st.lastStreamTitle = some title then
      ⟨st, [], [], true⟩
    else
      let st1 : ChannelState := { st with lastStreamTitle := some title }
      let msg := formatMessage title userName rid
      if st1.lastStreamId = some sid then
        onlineEdit d msg st1
      else
        onlineNew d cfg msg { st1 with lastStreamId := some sid }

/-- Decidable equality for the race results of the timeout helper. -/
def exceptEqDec : (a b : Except String Unit) → Decidable (a = b)
  | .ok (), .ok () => isTrue rfl
  | .ok (), .error _ => isFalse (by simp)
  | .error _, .ok () => isFalse (by simp)
  | .error s, .error t =>
    if h : s = t then isTrue (by rw [h]) else isFalse (by simp [h])

instance : DecidableEq (Except String Unit) := exceptEqDec

/-- Outcome observed by the caller of `fulfillWithTimeLimit`
(`src/utils.ts`): the result of the race, together with the effects of
the task.  `Promise.race` never cancels the losing promise, so the
task's effects (in-place state mutation and its own `statusDb.write()`
calls) occur regardless of the race's outcome. -/
structure TimedOutcome where
  effects : CycleOutcome
  result : Except String Unit
deriving Repr, DecidableEq

/-- `fulfillWithTimeLimit(timeLimit, task)` of `src/utils.ts`, with the
task abstracted by its effects and its completion time `duration`: the
caller sees the timeout rejection when the timer fires first, otherwise
the task's own result; the task's effects happen in every case. -/
def fulfillWithTimeLimit (timeLimit : Nat) (duration : Nat)
    (task : CycleOutcome) : TimedOutcome :=
  ⟨task,
    if timeLimit < duration then Except.error "Task timeout!"
    else if task.ok then Except.ok () else Except.error "update rejected"⟩

/-- The default per-entity record installed at startup (lines 60-66). -/
def defaultState : ChannelState := ⟨none, none, [], []⟩

/-- Lookup in the entity database `statusDb.data`. -/
def lookupDb : List (String × ChannelState) → String → Option ChannelState
  | [], _ => none
  | e :: rest, k => if e.1 = k then some e.2 else lookupDb rest k

/-- `statusDb.data[k] = v`. -/
def setDbEntry (db : List (String × ChannelState)) (k : String)
    (v : ChannelState) : List (String × ChannelState) :=
  if db.any (fun e => e.1 == k) then
    db.map (fun e => if e.1 = k then (k, v) else e)
  else
    db ++ [(k, v)]

/-- Result of one sweep: the database after it, the entities whose update
was run (in order), and whether the sweep completed without an error
escaping. -/
structure SweepOutcome where
  db : List (String × ChannelState)
  processed : List String
  ok : Bool
deriving Repr, DecidableEq

/-- The entity loop of `updateAll` (lines 241-243): each entity's update
is awaited under `fulfillWithTimeLimit` with NO surrounding `try`/`catch`,
so a timeout or a rejection from `update` escapes and aborts the
remainder of the loop.  The in-place mutations of the failed entity's
state remain visible because the task is not rolled back or cancelled. -/
def updateAllLoop (d : Dispatcher) (obs : String → Observation)
    (rid : String → String) (dur : String → Nat) :
    List (String × ConfigChannelEntry) → List (String × ChannelState) → SweepOutcome
  | [], db => ⟨db, [], true⟩
  | e :: rest, db =>
    let st := (lookupDb db e.1).getD defaultState
    let oc := update d e.2 st (obs e.1) (rid e.1)
    let timed := fulfillWithTimeLimit 15000 (dur e.1) oc
    let db1 := setDbEntry db e.1 oc.state
    match timed.result with
    | .error _ => ⟨db1, [e.1], false⟩
    | .ok _ =>
      let r := updateAllLoop d obs rid dur rest db1
      ⟨r.db, e.1 :: r.processed, r.ok⟩

/-- `updateAll` (lines 240-257): the entity loop, then — only when the
loop completed — the garbage collection of entities no longer present in
the configuration. -/
def updateAll (d : Dispatcher) (obs : String → Observation)
    (rid : String → String) (dur : String → Nat)
    (cfgChannels : List (String × ConfigChannelEntry))
    (db : List (String × ChannelState)) : SweepOutcome :=
  let r := updateAllLoop d obs rid dur cfgChannels db
  if r.ok then
    { r with db := r.db.filter (fun e => cfgChannels.any (fun c => c.1 == e.1)) }
  else r

/-- The delay scheduled between sweeps by the top-level loop, in
milliseconds: `setTimeout(resolve, 30 * 10000)` on line 278 of the
source. -/
def sweepDelayMs : Nat := 30 * 10000

/-- A dispatcher on which every call succeeds, `f` giving the message id
returned by each send. -/
def okDisp (f : Int → String → Nat) : Dispatcher :=
  ⟨fun c t => Except.ok (f c t), fun _ _ _ => Except.ok (),
   fun _ _ => Except.ok (), fun _ _ => Except.ok ()⟩

/-- A dispatcher on which exactly the sends to destination `bad` reject
and every other call succeeds. -/
def failSendTo (bad : Int) (f : Int → String → Nat) : Dispatcher :=
  ⟨fun c t => if c = bad then Except.error () else Except.ok (f c t),
   fun _ _ _ => Except.ok (), fun _ _ => Except.ok (),
   fun _ _ => Except.ok ()⟩

/-- A concrete message-id assignment for examples. -/
def fEx : Int → String → Nat := fun c _ => c.toNat + 1000

/-- A concrete all-success dispatcher for examples. -/
def dEx : Dispatcher := okDisp fEx

/-! ### Association-list lemmas -/

theorem lookupKey_map_set (m : List (Int × Option Nat)) (k : Int) (v : Option Nat)
    (h : ∃ e ∈ m, e.1 = k) :
    lookupKey (m.map (fun e => if e.1 = k then (k, v) else e)) k = some v := by
  induction m with
  | nil => simp at h
  | cons a rest ih =>
    by_cases ha : a.1 = k
    · simp [lookupKey, ha]
    · simp only [List.map_cons, if_neg ha, lookupKey, ha, if_false]
      apply ih
      rcases h with ⟨e, he, hek⟩
      rcases List.mem_cons.mp he with rfl | hmem
      · exact absurd hek ha
      · exact ⟨e, hmem, hek⟩

theorem lookupKey_append_self (m : List (Int × Option Nat)) (k : Int) (v : Option Nat)
    (h : ∀ e ∈ m, e.1 ≠ k) :
    lookupKey (m ++ [(k, v)]) k = some v := by
  induction m with
  | nil => simp [lookupKey]
  | cons a rest ih =>
    have ha := h a (List.mem_cons_self a rest)
    simp only [List.cons_append, lookupKey, ha, if_false]
    exact ih (fun e he => h e (List.mem_cons_of_mem a he))

theorem lookupKey_setEntry_self (m : List (Int × Option Nat)) (k : Int) (v : Option Nat) :
    lookupKey (setEntry m k v) k = some v := by
  unfold setEntry
  by_cases h : (m.any fun e => e.1 == k) = true
  · rw [if_pos h]
    apply lookupKey_map_set
    rcases List.any_eq_true.mp h with ⟨e, he, heq⟩
    exact ⟨e, he, by simpa using heq⟩
  · rw [if_neg h]
    apply lookupKey_append_self
    intro e he hk
    exact h (List.any_eq_true.mpr ⟨e, he, by simpa using hk⟩)

theorem lookupKey_map_set_ne (m : List (Int × Option Nat)) (k : Int) (v : Option Nat)
    (c : Int) (hck : c ≠ k) :
    lookupKey (m.map (fun e => if e.1 = k then (k, v) else e)) c = lookupKey m c := by
  induction m with
  | nil => rfl
  | cons a rest ih =>
    by_cases ha : a.1 = k
    · have hac : ¬(a.1 = c) := fun hc => hck (hc ▸ ha ▸ rfl)
      have hkc : ¬(k = c) := fun hc => hck hc.symm
      simp only [List.map_cons, if_pos ha, lookupKey, hkc, if_false, hac]
      exact ih
    · by_cases hac : a.1 = c
      · have hck' : ¬(c = k) := hck
        simp [lookupKey, ha, hac, hck']
      · simp only [List.map_cons, if_neg ha, lookupKey, hac, if_false]
        exact ih

theorem lookupKey_append_ne (m : List (Int × Option Nat)) (k : Int) (v : Option Nat)
    (c : Int) (hck : c ≠ k) :
    lookupKey (m ++ [(k, v)]) c = lookupKey m c := by
  induction m with
  | nil =>
    have : ¬(k = c) := fun hc => hck hc.symm
    simp [lookupKey, this]
  | cons a rest ih =>
    by_cases hac : a.1 = c
    · simp [lookupKey, hac]
    · simp only [List.cons_append, lookupKey, hac, if_false]
      exact ih

theorem lookupKey_setEntry_ne (m : List (Int × Option Nat)) (k : Int) (v : Option Nat)
    (c : Int) (hck : c ≠ k) :
    lookupKey (setEntry m k v) c = lookupKey m c := by
  unfold setEntry
  by_cases h : (m.any fun e => e.1 == k) = true
  · rw [if_pos h]; exact lookupKey_map_set_ne m k v c hck
  · rw [if_neg h]; exact lookupKey_append_ne m k v c hck

theorem lookupKey_foldl_setEntry_not_mem (vf : Int → Option Nat) (ids : List Int)
    (m : List (Int × Option Nat)) (c : Int) (hc : c ∉ ids) :
    lookupKey (ids.foldl (fun acc k => setEntry acc k (vf k)) m) c = lookupKey m c := by
  induction ids generalizing m with
  | nil => rfl
  | cons a rest ih =>
    have hca : c ≠ a := fun h => hc (h ▸ List.mem_cons_self a rest)
    have hcr : c ∉ rest := fun h => hc (List.mem_cons_of_mem a h)
    simp only [List.foldl_cons]
    rw [ih _ hcr, lookupKey_setEntry_ne _ _ _ _ hca]

theorem lookupKey_foldl_setEntry_mem (vf : Int → Option Nat) (ids : List Int)
    (m : List (Int × Option Nat)) (c : Int) (hc : c ∈ ids) :
    lookupKey (ids.foldl (fun acc k => setEntry acc k (vf k)) m) c = some (vf c) := by
  induction ids generalizing m with
  | nil => simp at hc
  | cons a rest ih =>
    simp only [List.foldl_cons]
    by_cases hcr : c ∈ rest
    · exact ih _ hcr
    · have hca : c = a := by
        rcases List.mem_cons.mp hc with h | h
        · exact h
        · exact absurd h hcr
      subst hca
      rw [lookupKey_foldl_setEntry_not_mem _ _ _ _ hcr, lookupKey_setEntry_self]

theorem any_key_of_mem (m : List (Int × Option Nat)) (k : Int)
    (h : k ∈ m.map Prod.fst) : (m.any fun e => e.1 == k) = true := by
  rcases List.mem_map.mp h with ⟨e, he, hk⟩
  exact List.any_eq_true.mpr ⟨e, he, by simpa using hk⟩

theorem keys_map_set (m : List (Int × Option Nat)) (k : Int) (v : Option Nat) :
    (m.map (fun e => if e.1 = k then (k, v) else e)).map Prod.fst = m.map Prod.fst := by
  induction m with
  | nil => rfl
  | cons a rest ih =>
    by_cases h : a.1 = k <;> simp [h, ih]

/-! ### Loop characterizations -/

theorem offlineLoop_groups (entries : List (Int × Option Nat)) (st : ChannelState) :
    (offlineLoop entries st).state.groups =
      entries.foldl (fun m e => if truthy e.2 then setEntry m e.1 none else m)
        st.groups := by
  induction entries generalizing st with
  | nil => rfl
  | cons e rest ih =>
    by_cases h : truthy e.2 = true
    · simp only [offlineLoop, h, if_true, List.foldl_cons]
      exact ih _
    · simp only [offlineLoop, h, Bool.false_eq_true, if_false, List.foldl_cons]
      exact ih st

theorem offlineLoop_channels (entries : List (Int × Option Nat)) (st : ChannelState) :
    (offlineLoop entries st).state.channels = st.channels := by
  induction entries generalizing st with
  | nil => rfl
  | cons e rest ih =>
    by_cases h : truthy e.2 = true
    · simp only [offlineLoop, h, if_true]
      exact ih _
    · simp only [offlineLoop, h, Bool.false_eq_true, if_false]
      exact ih st

theorem offlineLoop_lastId (entries : List (Int × Option Nat)) (st : ChannelState) :
    (offlineLoop entries st).state.lastStreamId = st.lastStreamId := by
  induction entries generalizing st with
  | nil => rfl
  | cons e rest ih =>
    by_cases h : truthy e.2 = true
    · simp only [offlineLoop, h, if_true]
      exact ih _
    · simp only [offlineLoop, h, Bool.false_eq_true, if_false]
      exact ih st

theorem offlineLoop_lastTitle (entries : List (Int × Option Nat)) (st : ChannelState) :
    (offlineLoop entries st).state.lastStreamTitle = st.lastStreamTitle := by
  induction entries generalizing st with
  | nil => rfl
  | cons e rest ih =>
    by_cases h : truthy e.2 = true
    · simp only [offlineLoop, h, if_true]
      exact ih _
    · simp only [offlineLoop, h, Bool.false_eq_true, if_false]
      exact ih st

theorem offlineLoop_trace (entries : List (Int × Option Nat)) (st : ChannelState) :
    (offlineLoop entries st).trace =
      List.flatten ((entries.filter (fun e => truthy e.2)).map
        (fun e => [Action.unpin e.1 (midVal e.2), Action.persist])) := by
  induction entries generalizing st with
  | nil => rfl
  | cons e rest ih =>
    by_cases h : truthy e.2 = true
    · simp only [offlineLoop, h, if_true, List.filter_cons, List.map_cons,
        List.flatten_cons]
      rw [ih]
      rfl
    · simp only [offlineLoop, h, Bool.false_eq_true, if_false, List.filter_cons]
      rw [ih st]

theorem offlineLoop_ok (entries : List (Int × Option Nat)) (st : ChannelState) :
    (offlineLoop entries st).ok = true := by
  induction entries generalizing st with
  | nil => rfl
  | cons e rest ih =>
    by_cases h : truthy e.2 = true
    · simp only [offlineLoop, h, if_true]
      exact ih _
    · simp only [offlineLoop, h, Bool.false_eq_true, if_false]
      exact ih st

theorem editLoop_okDisp (f : Int → String → Nat) (msg : String)
    (entries : List (Int × Option Nat)) :
    editLoop (okDisp f) msg entries =
      ⟨entries.map (fun e =>
          if truthy e.2 then Action.edit e.1 (midVal e.2) msg else Action.reportMissing),
       entries.any (fun e => truthy e.2), true⟩ := by
  induction entries with
  | nil => rfl
  | cons e rest ih =>
    have hred : (okDisp f).editMessageText e.1 (midVal e.2) msg = Except.ok () := rfl
    by_cases h : truthy e.2 = true
    · simp only [editLoop, h, if_true, hred]
      rw [ih]
      simp [h]
    · simp only [editLoop, h, Bool.false_eq_true, if_false]
      rw [ih]
      simp [h]

theorem sendChannelsLoop_okDisp (f : Int → String → Nat) (msg : String)
    (ids : List Int) (st : ChannelState) :
    sendChannelsLoop (okDisp f) msg ids st =
      ⟨{ st with channels :=
            ids.foldl (fun m c => setEntry m c (some (f c msg))) st.channels },
       ids.map (fun c => Action.send c msg), [], true⟩ := by
  induction ids generalizing st with
  | nil => rfl
  | cons c rest ih =>
    have hred : (okDisp f).sendMessage c msg = Except.ok (f c msg) := rfl
    simp only [sendChannelsLoop, hred, List.foldl_cons, List.map_cons]
    rw [ih]

theorem sendGroupsLoop_okDisp (f : Int → String → Nat) (msg : String)
    (ids : List Int) (st : ChannelState) :
    sendGroupsLoop (okDisp f) msg ids st =
      ⟨{ st with groups :=
            ids.foldl (fun m g => setEntry m g (some (f g msg))) st.groups },
       List.flatten (ids.map (fun g => [Action.send g msg, Action.pin g (f g msg)])),
       [], true⟩ := by
  induction ids generalizing st with
  | nil => rfl
  | cons g rest ih =>
    have hred : (okDisp f).sendMessage g msg = Except.ok (f g msg) := rfl
    have hred2 : (okDisp f).pinChatMessage g (f g msg) = Except.ok () := rfl
    simp only [sendGroupsLoop, hred, hred2, List.foldl_cons, List.map_cons,
      List.flatten_cons]
    rw [ih]
    rfl

theorem sendChannelsLoop_groups (d : Dispatcher) (msg : String) (ids : List Int)
    (st : ChannelState) :
    (sendChannelsLoop d msg ids st).state.groups = st.groups := by
  induction ids generalizing st with
  | nil => rfl
  | cons c rest ih =>
    cases h : d.sendMessage c msg with
    | error e => simp [sendChannelsLoop, h]
    | ok mid => simp [sendChannelsLoop, h, ih]

theorem sendChannelsLoop_lastId (d : Dispatcher) (msg : String) (ids : List Int)
    (st : ChannelState) :
    (sendChannelsLoop d msg ids st).state.lastStreamId = st.lastStreamId := by
  induction ids generalizing st with
  | nil => rfl
  | cons c rest ih =>
    cases h : d.sendMessage c msg with
    | error e => simp [sendChannelsLoop, h]
    | ok mid => simp [sendChannelsLoop, h, ih]

theorem sendChannelsLoop_lastTitle (d : Dispatcher) (msg : String) (ids : List Int)
    (st : ChannelState) :
    (sendChannelsLoop d msg ids st).state.lastStreamTitle = st.lastStreamTitle := by
  induction ids generalizing st with
  | nil => rfl
  | cons c rest ih =>
    cases h : d.sendMessage c msg with
    | error e => simp [sendChannelsLoop, h]
    | ok mid => simp [sendChannelsLoop, h, ih]

theorem sendGroupsLoop_channels (d : Dispatcher) (msg : String) (ids : List Int)
    (st : ChannelState) :
    (sendGroupsLoop d msg ids st).state.channels = st.channels := by
  induction ids generalizing st with
  | nil => rfl
  | cons g rest ih =>
    cases h : d.sendMessage g msg with
    | error e => simp [sendGroupsLoop, h]
    | ok mid =>
      cases h2 : d.pinChatMessage g mid with
      | error e => simp [sendGroupsLoop, h, h2]
      | ok u => simp [sendGroupsLoop, h, h2, ih]

theorem sendGroupsLoop_lastId (d : Dispatcher) (msg : String) (ids : List Int)
    (st : ChannelState) :
    (sendGroupsLoop d msg ids st).state.lastStreamId = st.lastStreamId := by
  induction ids generalizing st with
  | nil => rfl
  | cons g rest ih =>
    cases h : d.sendMessage g msg with
    | error e => simp [sendGroupsLoop, h]
    | ok mid =>
      cases h2 : d.pinChatMessage g mid with
      | error e => simp [sendGroupsLoop, h, h2]
      | ok u => simp [sendGroupsLoop, h, h2, ih]

theorem sendGroupsLoop_lastTitle (d : Dispatcher) (msg : String) (ids : List Int)
    (st : ChannelState) :
    (sendGroupsLoop d msg ids st).state.lastStreamTitle = st.lastStreamTitle := by
  induction ids generalizing st with
  | nil => rfl
  | cons g rest ih =>
    cases h : d.sendMessage g msg with
    | error e => simp [sendGroupsLoop, h]
    | ok mid =>
      cases h2 : d.pinChatMessage g mid with
      | error e => simp [sendGroupsLoop, h, h2]
      | ok u => simp [sendGroupsLoop, h, h2, ih]

/-! ### Well-formed states: truthiness coincides with non-nullness -/

theorem truthy_eq_isSome (v : Option Nat) (h : v ≠ some 0) :
    truthy v = v.isSome := by
  cases v with
  | none => rfl
  | some n =>
    cases n with
    | zero => exact absurd rfl h
    | succ m => simp [truthy]

theorem wfValues_mem (m : List (Int × Option Nat)) (hwf : wfValues m = true)
    (e : Int × Option Nat) (he : e ∈ m) : e.2 ≠ some 0 := by
  have := List.all_eq_true.mp hwf e he
  simpa using this

theorem filter_truthy_eq_isSome (m : List (Int × Option Nat))
    (hwf : wfValues m = true) :
    (m.filter fun e => truthy e.2) = (m.filter fun e => e.2.isSome) := by
  apply List.filter_congr
  intro e he
  exact truthy_eq_isSome e.2 (wfValues_mem m hwf e he)

theorem any_truthy_eq_isSome (m : List (Int × Option Nat))
    (hwf : wfValues m = true) :
    (m.any fun e => truthy e.2) = (m.any fun e => e.2.isSome) := by
  induction m with
  | nil => rfl
  | cons e rest ih =>
    have h1 : truthy e.2 = e.2.isSome :=
      truthy_eq_isSome e.2 (wfValues_mem _ hwf e (List.mem_cons_self _ _))
    have h2 : wfValues rest = true := by
      apply List.all_eq_true.mpr
      intro x hx
      exact List.all_eq_true.mp hwf x (List.mem_cons_of_mem e hx)
    simp [List.any_cons, h1, ih h2]

theorem map_ifTruthy_eq_isSome (m : List (Int × Option Nat))
    (hwf : wfValues m = true) (f g : Int × Option Nat → Action) :
    (m.map fun e => if truthy e.2 then f e else g e)
      = (m.map fun e => if e.2.isSome then f e else g e) := by
  apply List.map_congr_left
  intro e he
  rw [truthy_eq_isSome e.2 (wfValues_mem m hwf e he)]

/-! ### Clearing every truthy group entry (the offline unwind) -/

theorem foldl_clear_eq_filter (l acc : List (Int × Option Nat)) :
    l.foldl (fun m e => if truthy e.2 then setEntry m e.1 none else m) acc
      = ((l.filter fun e => truthy e.2).map Prod.fst).foldl
          (fun m k => setEntry m k none) acc := by
  induction l generalizing acc with
  | nil => rfl
  | cons e rest ih =>
    by_cases h : truthy e.2 = true <;>
      simp [List.filter_cons, h, ih]

theorem foldl_setEntry_none_present (ks : List Int) (acc : List (Int × Option Nat))
    (h : ∀ k ∈ ks, k ∈ acc.map Prod.fst) :
    ks.foldl (fun m k => setEntry m k none) acc
      = acc.map (fun e => if ks.contains e.1 then (e.1, (none : Option Nat)) else e) := by
  induction ks generalizing acc with
  | nil => simp
  | cons k ks ih =>
    have hk : k ∈ acc.map Prod.fst := h k (List.mem_cons_self _ _)
    have hset : setEntry acc k none
        = acc.map (fun e => if e.1 = k then (k, none) else e) := by
      unfold setEntry
      rw [if_pos (any_key_of_mem acc k hk)]
    have hkeys : (acc.map (fun e => if e.1 = k then (k, (none : Option Nat)) else e)).map
        Prod.fst = acc.map Prod.fst := keys_map_set acc k none
    simp only [List.foldl_cons, hset]
    rw [ih _ (fun k' hk' => by rw [hkeys]; exact h k' (List.mem_cons_of_mem _ hk'))]
    rw [List.map_map]
    apply List.map_congr_left
    intro e _
    by_cases h1 : e.1 = k
    · simp [Function.comp, h1]
    · by_cases h2 : ks.contains e.1 = true <;>
        simp [Function.comp, h1, h2, List.contains_cons]

theorem clear_truthy_self (m : List (Int × Option Nat)) (hwf : wfValues m = true) :
    m.foldl (fun acc e => if truthy e.2 then setEntry acc e.1 none else acc) m
      = m.map (fun e => (e.1, (none : Option Nat))) := by
  rw [foldl_clear_eq_filter]
  have hmem : ∀ k ∈ (m.filter fun e => truthy e.2).map Prod.fst,
      k ∈ m.map Prod.fst := by
    intro k hk
    rcases List.mem_map.mp hk with ⟨e, he, rfl⟩
    exact List.mem_map_of_mem Prod.fst (List.mem_of_mem_filter he)
  rw [foldl_setEntry_none_present _ _ hmem]
  apply List.map_congr_left
  intro e he
  by_cases h : (((m.filter fun e => truthy e.2).map Prod.fst).contains e.1) = true
  · rw [if_pos h]
  · rw [if_neg h]
    have hnt : truthy e.2 = false := by
      by_contra hcon
      have ht : truthy e.2 = true := by simpa using hcon
      have : e.1 ∈ (m.filter fun e => truthy e.2).map Prod.fst :=
        List.mem_map_of_mem Prod.fst (List.mem_filter.mpr ⟨he, ht⟩)
      exact h (by simpa using this)
    have hz : e.2 ≠ some 0 := wfValues_mem m hwf e he
    have hnone : e.2 = none := by
      cases he2 : e.2 with
      | none => rfl
      | some n =>
        cases n with
        | zero => exact absurd he2 hz
        | succ m => rw [he2] at hnt; simp [truthy] at hnt
    rw [← hnone]

/-! ### Branch-level facts about update -/

theorem cleanupRemoved_groups (cfg : ConfigChannelEntry) (st : ChannelState) :
    (cleanupRemoved cfg st).groups = st.groups := rfl

theorem cleanupRemoved_lastId (cfg : ConfigChannelEntry) (st : ChannelState) :
    (cleanupRemoved cfg st).lastStreamId = st.lastStreamId := rfl

theorem cleanupRemoved_lastTitle (cfg : ConfigChannelEntry) (st : ChannelState) :
    (cleanupRemoved cfg st).lastStreamTitle = st.lastStreamTitle := rfl

theorem onlineEdit_state (d : Dispatcher) (msg : String) (st1 : ChannelState) :
    (onlineEdit d msg st1).state = st1 := by
  unfold onlineEdit
  by_cases h1 : (editLoop d msg st1.channels).ok = true <;>
    by_cases h2 : (editLoop d msg st1.groups).ok = true <;>
      by_cases h3 : ((editLoop d msg st1.channels).changes
          || (editLoop d msg st1.groups).changes) = true <;>
        simp [h1, h2, h3]

theorem onlineNew_lastTitle (d : Dispatcher) (cfg : ConfigChannelEntry)
    (msg : String) (st2 : ChannelState) :
    (onlineNew d cfg msg st2).state.lastStreamTitle = st2.lastStreamTitle := by
  unfold onlineNew
  by_cases h1 : (sendChannelsLoop d msg cfg.channelIds (cleanupRemoved cfg st2)).ok = true
  · by_cases h2 : (sendGroupsLoop d msg cfg.groupIds
        (sendChannelsLoop d msg cfg.channelIds (cleanupRemoved cfg st2)).state).ok = true <;>
      simp [h1, h2, sendGroupsLoop_lastTitle, sendChannelsLoop_lastTitle,
        cleanupRemoved_lastTitle]
  · simp [h1, sendChannelsLoop_lastTitle, cleanupRemoved_lastTitle]

theorem onlineNew_lastId (d : Dispatcher) (cfg : ConfigChannelEntry)
    (msg : String) (st2 : ChannelState) :
    (onlineNew d cfg msg st2).state.lastStreamId = st2.lastStreamId := by
  unfold onlineNew
  by_cases h1 : (sendChannelsLoop d msg cfg.channelIds (cleanupRemoved cfg st2)).ok = true
  · by_cases h2 : (sendGroupsLoop d msg cfg.groupIds
        (sendChannelsLoop d msg cfg.channelIds (cleanupRemoved cfg st2)).state).ok = true <;>
      simp [h1, h2, sendGroupsLoop_lastId, sendChannelsLoop_lastId,
        cleanupRemoved_lastId]
  · simp [h1, sendChannelsLoop_lastId, cleanupRemoved_lastId]

theorem update_suppressed (d : Dispatcher) (cfg : ConfigChannelEntry)
    (st : ChannelState) (sid title un rid : String)
    (h : st.lastStreamTitle = some title) :
    update d cfg st (.online sid title un) rid = ⟨st, [], [], true⟩ := by
  simp [update, h]

theorem update_state_title (d : Dispatcher) (cfg : ConfigChannelEntry)
    (st : ChannelState) (sid title un rid : String) :
    (update d cfg st (.online sid title un) rid).state.lastStreamTitle
      = some title := by
  unfold update
  by_cases h : st.lastStreamTitle = some title
  · simp [h]
  · by_cases h2 : st.lastStreamId = some sid
    · simp [h, h2, onlineEdit_state]
    · simp [h, h2, onlineNew_lastTitle]

theorem update_new_session (d : Dispatcher) (cfg : ConfigChannelEntry)
    (st : ChannelState) (sid title un rid : String)
    (hT : st.lastStreamTitle ≠ some title) (hS : st.lastStreamId ≠ some sid) :
    update d cfg st (.online sid title un) rid
      = onlineNew d cfg (formatMessage title un rid)
          { st with lastStreamTitle := some title, lastStreamId := some sid } := by
  simp [update, hT, hS]

theorem update_edit_branch (d : Dispatcher) (cfg : ConfigChannelEntry)
    (st : ChannelState) (sid title un rid : String)
    (hT : st.lastStreamTitle ≠ some title) (hS : st.lastStreamId = some sid) :
    update d cfg st (.online sid title un) rid
      = onlineEdit d (formatMessage title un rid)
          { st with lastStreamTitle := some title } := by
  simp [update, hT, hS]

theorem onlineNew_okDisp (f : Int → String → Nat) (cfg : ConfigChannelEntry)
    (msg : String) (st2 : ChannelState) :
    onlineNew (okDisp f) cfg msg st2 =
      ⟨⟨(cleanupRemoved cfg st2).lastStreamId, (cleanupRemoved cfg st2).lastStreamTitle,
        cfg.channelIds.foldl (fun m c => setEntry m c (some (f c msg)))
          (cleanupRemoved cfg st2).channels,
        cfg.groupIds.foldl (fun m g => setEntry m g (some (f g msg)))
          (cleanupRemoved cfg st2).groups⟩,
       (cfg.channelIds.map fun c => Action.send c msg)
         ++ List.flatten (cfg.groupIds.map fun g =>
              [Action.send g msg, Action.pin g (f g msg)])
         ++ [Action.persist],
       [⟨(cleanupRemoved cfg st2).lastStreamId, (cleanupRemoved cfg st2).lastStreamTitle,
         cfg.channelIds.foldl (fun m c => setEntry m c (some (f c msg)))
           (cleanupRemoved cfg st2).channels,
         cfg.groupIds.foldl (fun m g => setEntry m g (some (f g msg)))
           (cleanupRemoved cfg st2).groups⟩],
       true⟩ := by
  unfold onlineNew
  simp only [sendChannelsLoop_okDisp, sendGroupsLoop_okDisp]
  rfl

/-! ### The claims -/

/-- C1, counterexample.  The claim quantifies over every online
observation whose stream id differs from `state.lastStreamId` and
promises a send to every configured destination.  But the duplicate-title
suppression (line 135) runs first and tests only the title: an entity
that was offline (`lastStreamId = none`), observed live with stream id
"s2" and a title equal to the stale `lastTitle`, produces NO dispatcher
action although a direct channel (100) is configured. -/
theorem c1_counterexample :
    (update dEx ⟨[200], [100]⟩ ⟨none, some "T", [], []⟩
        (.online "s2" "T" "u") "r").trace = [] ∧
    (⟨none, some "T", [], []⟩ : ChannelState).lastStreamId ≠ some "s2" ∧
    (⟨[200], [100]⟩ : ConfigChannelEntry).channelIds ≠ [] := by
  refine ⟨by decide, by decide, by decide⟩

/-- C1, amended: additionally assuming the observed title differs from
`state.lastTitle` (so duplicate suppression does not fire), a new-session
observation sends to every configured direct channel, then to every
configured group followed by its pin — all channel sends before any group
action — and the returned message ids replace the prior entries at the
configured destination ids, with `lastStreamId`/`lastTitle` updated. -/
theorem c1_new_session (f : Int → String → Nat) (cfg : ConfigChannelEntry)
    (st : ChannelState) (sid title un rid : String)
    (hT : st.lastStreamTitle ≠ some title) (hS : st.lastStreamId ≠ some sid) :
    (update (okDisp f) cfg st (.online sid title un) rid).trace
        = (cfg.channelIds.map fun c => Action.send c (formatMessage title un rid))
          ++ List.flatten (cfg.groupIds.map fun g =>
               [Action.send g (formatMessage title un rid),
                Action.pin g (f g (formatMessage title un rid))])
          ++ [Action.persist] ∧
    (∀ c ∈ cfg.channelIds,
        lookupKey (update (okDisp f) cfg st (.online sid title un) rid).state.channels c
          = some (some (f c (formatMessage title un rid)))) ∧
    (∀ g ∈ cfg.groupIds,
        lookupKey (update (okDisp f) cfg st (.online sid title un) rid).state.groups g
          = some (some (f g (formatMessage title un rid)))) ∧
    (update (okDisp f) cfg st (.online sid title un) rid).state.lastStreamId
        = some sid ∧
    (update (okDisp f) cfg st (.online sid title un) rid).state.lastStreamTitle
        = some title ∧
    (update (okDisp f) cfg st (.online sid title un) rid).ok = true := by
  rw [update_new_session (okDisp f) cfg st sid title un rid hT hS, onlineNew_okDisp]
  refine ⟨rfl, ?_, ?_, rfl, rfl, rfl⟩
  · intro c hc
    exact lookupKey_foldl_setEntry_mem
      (fun k => some (f k (formatMessage title un rid))) cfg.channelIds _ c hc
  · intro g hg
    exact lookupKey_foldl_setEntry_mem
      (fun k => some (f k (formatMessage title un rid))) cfg.groupIds _ g hg

/-- C1 witness: the amended theorem applied at a concrete previously-live
state and configuration. -/
theorem c1_new_session_witness :
    (update (okDisp fEx) ⟨[200], [100]⟩ ⟨some "s1", some "Old", [(100, some 5)], []⟩
        (.online "s2" "T" "u") "r").ok = true ∧
    lookupKey (update (okDisp fEx) ⟨[200], [100]⟩
        ⟨some "s1", some "Old", [(100, some 5)], []⟩
        (.online "s2" "T" "u") "r").state.channels 100
      = some (some (fEx 100 (formatMessage "T" "u" "r"))) := by
  have h := c1_new_session fEx ⟨[200], [100]⟩
    ⟨some "s1", some "Old", [(100, some 5)], []⟩ "s2" "T" "u" "r"
    (by decide) (by decide)
  exact ⟨h.2.2.2.2.2, h.2.1 100 (by decide)⟩

/-- C2: reconciling the same `{live, streamId, title}` observation twice
in a row is idempotent.  Whenever the prior `lastTitle` equals the
observed title the cycle returns with no dispatcher action, no write and
the state unchanged (first conjunct, the general suppression rule —
note it does not look at the stream id); and after any first
reconciliation of the observation the recorded title equals the observed
one, so the second reconciliation is exactly such a no-op (second
conjunct). -/
theorem c2_idempotent (d1 d2 : Dispatcher) (cfg1 cfg2 : ConfigChannelEntry)
    (st stPrev : ChannelState) (sid sid2 title un un2 rid rid2 : String)
    (h : stPrev.lastStreamTitle = some title) :
    update d2 cfg2 stPrev (.online sid2 title un2) rid2 = ⟨stPrev, [], [], true⟩ ∧
    update d2 cfg2 (update d1 cfg1 st (.online sid title un) rid).state
        (.online sid title un2) rid2
      = ⟨(update d1 cfg1 st (.online sid title un) rid).state, [], [], true⟩ := by
  constructor
  · exact update_suppressed d2 cfg2 stPrev sid2 title un2 rid2 h
  · exact update_suppressed d2 cfg2 _ sid title un2 rid2
      (update_state_title d1 cfg1 st sid title un rid)

/-- C2 witness: a second reconciliation of the same observation after a
full fan-out is a no-op. -/
theorem c2_idempotent_witness :
    update dEx ⟨[200], [100]⟩
        (update dEx ⟨[200], [100]⟩ defaultState (.online "s" "T" "u") "r").state
        (.online "s" "T" "u") "r2"
      = ⟨(update dEx ⟨[200], [100]⟩ defaultState (.online "s" "T" "u") "r").state,
         [], [], true⟩ :=
  (c2_idempotent dEx dEx ⟨[200], [100]⟩ ⟨[200], [100]⟩ defaultState
    ⟨none, some "T", [], []⟩ "s" "s" "T" "u" "u" "r" "r2" (by decide)).2

/-- C3: on a same-session title change (`lastStreamId` matches, title
differs), the reconciler edits exactly the recorded message ids of
`channelMessages` then of `groupMessages` — skipping and reporting
entries whose recorded id is null — performs no send, pin or unpin, and
updates only `lastTitle`.  The well-formedness hypotheses state that
recorded ids are never the number 0 (true of every state the program
writes), so the JS truthiness test coincides with non-nullness. -/
theorem c3_edit_in_place (f : Int → String → Nat) (cfg : ConfigChannelEntry)
    (st : ChannelState) (sid title un rid : String)
    (hT : st.lastStreamTitle ≠ some title) (hS : st.lastStreamId = some sid)
    (hwfC : wfValues st.channels = true) (hwfG : wfValues st.groups = true) :
    (update (okDisp f) cfg st (.online sid title un) rid).state
        = { st with lastStreamTitle := some title } ∧
    (update (okDisp f) cfg st (.online sid title un) rid).trace
        = (st.channels.map (fun e =>
              if e.2.isSome then
                Action.edit e.1 (midVal e.2) (formatMessage title un rid)
              else Action.reportMissing))
          ++ (st.groups.map (fun e =>
              if e.2.isSome then
                Action.edit e.1 (midVal e.2) (formatMessage title un rid)
              else Action.reportMissing))
          ++ (if ((st.channels ++ st.groups).any fun e => e.2.isSome)
              then [Action.persist] else []) ∧
    (update (okDisp f) cfg st (.online sid title un) rid).ok = true := by
  have hmapC := map_ifTruthy_eq_isSome st.channels hwfC
    (fun e => Action.edit e.1 (midVal e.2) (formatMessage title un rid))
    (fun _ => Action.reportMissing)
  have hmapG := map_ifTruthy_eq_isSome st.groups hwfG
    (fun e => Action.edit e.1 (midVal e.2) (formatMessage title un rid))
    (fun _ => Action.reportMissing)
  have hanyC := any_truthy_eq_isSome st.channels hwfC
  have hanyG := any_truthy_eq_isSome st.groups hwfG
  rw [update_edit_branch (okDisp f) cfg st sid title un rid hT hS]
  by_cases hch : ((st.channels.any fun e => truthy e.2)
      || (st.groups.any fun e => truthy e.2)) = true
  · rw [hanyC, hanyG] at hch
    refine ⟨?_, ?_, ?_⟩ <;>
      simp [onlineEdit, editLoop_okDisp, hch, hmapC, hmapG, hanyC, hanyG,
        List.any_append]
  · rw [hanyC, hanyG] at hch
    refine ⟨?_, ?_, ?_⟩ <;>
      simp [onlineEdit, editLoop_okDisp, hch, hmapC, hmapG, hanyC, hanyG,
        List.any_append]

/-- C3 witness: one recorded channel message is edited, a null group
entry is skipped and reported. -/
theorem c3_edit_in_place_witness :
    (update (okDisp fEx) ⟨[2], [1]⟩
        ⟨some "s", some "Old", [(1, some 11)], [(2, none)]⟩
        (.online "s" "New" "u") "r").trace
      = [Action.edit 1 11 (formatMessage "New" "u" "r"), Action.reportMissing,
         Action.persist] := by
  have h := c3_edit_in_place fEx ⟨[2], [1]⟩
    ⟨some "s", some "Old", [(1, some 11)], [(2, none)]⟩ "s" "New" "u" "r"
    (by decide) (by decide) (by decide) (by decide)
  rw [h.2.1]
  decide

/-- C4: on an offline observation the reconciler attempts an unpin for
every group entry holding a message id, in enumeration order, with a
database write right after each one (not batched); every group entry ends
up cleared; and nothing else changes: `channelMessages`, `lastStreamId`
and `lastTitle` are untouched, the trace contains no send, edit, pin or
delete, and the cycle never fails (the unpin sits in a try/catch). -/
theorem c4_offline_unwind (d : Dispatcher) (cfg : ConfigChannelEntry)
    (st : ChannelState) (rid : String) (hwf : wfValues st.groups = true) :
    (update d cfg st .offline rid).trace
        = List.flatten ((st.groups.filter (fun e => e.2.isSome)).map
            (fun e => [Action.unpin e.1 (midVal e.2), Action.persist])) ∧
    (update d cfg st .offline rid).state.groups
        = st.groups.map (fun e => (e.1, (none : Option Nat))) ∧
    (update d cfg st .offline rid).state.channels = st.channels ∧
    (update d cfg st .offline rid).state.lastStreamId = st.lastStreamId ∧
    (update d cfg st .offline rid).state.lastStreamTitle = st.lastStreamTitle ∧
    (update d cfg st .offline rid).ok = true := by
  have hof : update d cfg st .offline rid = offlineLoop st.groups st := rfl
  refine ⟨?_, ?_, ?_, ?_, ?_, ?_⟩
  · rw [hof, offlineLoop_trace, filter_truthy_eq_isSome st.groups hwf]
  · rw [hof, offlineLoop_groups, clear_truthy_self st.groups hwf]
  · rw [hof, offlineLoop_channels]
  · rw [hof, offlineLoop_lastId]
  · rw [hof, offlineLoop_lastTitle]
  · rw [hof]
    exact offlineLoop_ok st.groups st

/-- C4 witness: unpin and per-destination write for the one recorded
group message; the channel entry and the stream id survive. -/
theorem c4_offline_unwind_witness :
    (update dEx ⟨[], []⟩ ⟨some "a", some "T", [(100, some 5)], [(7, some 4), (8, none)]⟩
        .offline "r").trace
      = [Action.unpin 7 4, Action.persist] ∧
    (update dEx ⟨[], []⟩ ⟨some "a", some "T", [(100, some 5)], [(7, some 4), (8, none)]⟩
        .offline "r").state.channels = [(100, some 5)] := by
  have h := c4_offline_unwind dEx ⟨[], []⟩
    ⟨some "a", some "T", [(100, some 5)], [(7, some 4), (8, none)]⟩ "r" (by decide)
  refine ⟨?_, h.2.2.1⟩
  rw [h.1]
  decide

/-- C5: code bug.  The claim (and the source comment on line 179,
"Cleanup removed groups and channels") says a new-session event prunes
`groupMessages` entries whose destination id left the configured group
set.  The second cleanup loop (lines 186-191) instead tests the group
key against `channelConfig.channelIds` and deletes from
`state.channels`, so a stale group entry — destination 200, no longer in
the (empty) configured group set — survives the new-session cycle
unchanged while the claim requires it removed. -/
theorem c5_stale_group_survives :
    (update dEx ⟨[], [100]⟩ ⟨some "a", some "T", [(100, some 5)], [(200, some 7)]⟩
        (.online "b" "T2" "u") "r").state.groups = [(200, some 7)] ∧
    (200 : Int) ∉ (⟨[], [100]⟩ : ConfigChannelEntry).groupIds ∧
    (update dEx ⟨[], [100]⟩ ⟨some "a", some "T", [(100, some 5)], [(200, some 7)]⟩
        (.online "b" "T2" "u") "r").ok = true := by
  refine ⟨by decide, by decide, by decide⟩

/-- C6, counterexample.  The claim says a failed destination-level send
does not abort processing of the remaining destinations.  But only the
unpin call sits in a try/catch (lines 99-103); the sends of the fan-out
are plain awaits, so with groups configured as [3, 2] and the send to 3
rejecting, the cycle throws: group 2 — still pending — receives no send
and records no entry. -/
theorem c6_counterexample :
    (update (failSendTo 3 fEx) ⟨[3, 2], [1]⟩ defaultState
        (.online "s" "T" "u") "r").trace
      = [Action.send 1 (formatMessage "T" "u" "r"),
         Action.send 3 (formatMessage "T" "u" "r")] ∧
    lookupKey (update (failSendTo 3 fEx) ⟨[3, 2], [1]⟩ defaultState
        (.online "s" "T" "u") "r").state.groups 2 = none ∧
    (2 : Int) ∈ (⟨[3, 2], [1]⟩ : ConfigChannelEntry).groupIds ∧
    (update (failSendTo 3 fEx) ⟨[3, 2], [1]⟩ defaultState
        (.online "s" "T" "u") "r").ok = false := by
  refine ⟨by decide, by decide, by decide, by decide⟩

/-- C6, amended: a failure of a send, edit or pin call aborts the
remainder of the cycle (only unpin failures are tolerated), and the
in-memory state after the aborted cycle records entries exactly for the
destinations whose calls succeeded before the failure: with channel C1
and groups G1, G2 and the send to G2 rejecting, the state holds the C1
and G1 entries and no G2 entry — though the cycle's own final write is
skipped, so the entries reach disk only with a later write. -/
theorem c6_partial_failure (f : Int → String → Nat) (c1 g1 g2 : Int)
    (st : ChannelState) (sid title un rid : String)
    (hT : st.lastStreamTitle ≠ some title) (hS : st.lastStreamId ≠ some sid)
    (hC : st.channels = []) (hG : st.groups = [])
    (h1 : c1 ≠ g2) (h2 : g1 ≠ g2) :
    (update (failSendTo g2 f) ⟨[g1, g2], [c1]⟩ st (.online sid title un) rid).trace
      = [Action.send c1 (formatMessage title un rid),
         Action.send g1 (formatMessage title un rid),
         Action.pin g1 (f g1 (formatMessage title un rid)),
         Action.send g2 (formatMessage title un rid)] ∧
    (update (failSendTo g2 f) ⟨[g1, g2], [c1]⟩ st
        (.online sid title un) rid).state.channels
      = [(c1, some (f c1 (formatMessage title un rid)))] ∧
    (update (failSendTo g2 f) ⟨[g1, g2], [c1]⟩ st
        (.online sid title un) rid).state.groups
      = [(g1, some (f g1 (formatMessage title un rid)))] ∧
    (update (failSendTo g2 f) ⟨[g1, g2], [c1]⟩ st
        (.online sid title un) rid).writes = [] ∧
    (update (failSendTo g2 f) ⟨[g1, g2], [c1]⟩ st
        (.online sid title un) rid).ok = false := by
  have hsend1 : (failSendTo g2 f).sendMessage c1 (formatMessage title un rid)
      = Except.ok (f c1 (formatMessage title un rid)) := by
    simp [failSendTo, h1]
  have hsendg1 : (failSendTo g2 f).sendMessage g1 (formatMessage title un rid)
      = Except.ok (f g1 (formatMessage title un rid)) := by
    simp [failSendTo, h2]
  have hsendg2 : (failSendTo g2 f).sendMessage g2 (formatMessage title un rid)
      = Except.error () := by
    simp [failSendTo]
  have hpin : (failSendTo g2 f).pinChatMessage g1
      (f g1 (formatMessage title un rid)) = Except.ok () := rfl
  rw [update_new_session (failSendTo g2 f) ⟨[g1, g2], [c1]⟩ st sid title un rid hT hS]
  refine ⟨?_, ?_, ?_, ?_, ?_⟩ <;>
    simp [onlineNew, cleanupRemoved, hC, hG, sendChannelsLoop, sendGroupsLoop,
      hsend1, hsendg1, hsendg2, hpin, setEntry]

/-- C6 witness: the amended theorem at channel 1, groups [2, 3], with
the send to group 3 rejecting. -/
theorem c6_partial_failure_witness :
    (update (failSendTo 3 fEx) ⟨[2, 3], [1]⟩ defaultState
        (.online "s" "T" "u") "r").state.channels
      = [(1, some (fEx 1 (formatMessage "T" "u" "r")))] ∧
    (update (failSendTo 3 fEx) ⟨[2, 3], [1]⟩ defaultState
        (.online "s" "T" "u") "r").state.groups
      = [(2, some (fEx 2 (formatMessage "T" "u" "r")))] ∧
    (update (failSendTo 3 fEx) ⟨[2, 3], [1]⟩ defaultState
        (.online "s" "T" "u") "r").ok = false := by
  have h := c6_partial_failure fEx 1 2 3 defaultState "s" "T" "u" "r"
    (by decide) (by decide) rfl rfl (by decide) (by decide)
  exact ⟨h.2.1, h.2.2.1, h.2.2.2.2⟩

/-- C7, counterexample.  The claimed invariant requires `lastStreamId`
to be null after a successful cycle that observes the entity offline.
The offline branch (lines 88-127) never touches `lastStreamId`: starting
from a live state with stream id "a", a successful offline cycle leaves
it `some "a"`. -/
theorem c7_counterexample :
    (update dEx ⟨[], []⟩ ⟨some "a", some "T", [], []⟩ .offline "r").ok = true ∧
    (update dEx ⟨[], []⟩ ⟨some "a", some "T", [], []⟩ .offline "r").state.lastStreamId
      ≠ none := by
  refine ⟨by decide, by decide⟩

/-- C7, amended: the offline transition does not clear `lastStreamId`
(nor `lastTitle`): an offline cycle leaves both exactly as they were, so
`lastStreamId` remains non-null after the entity goes offline and the
claimed iff invariant does not hold for the code. -/
theorem c7_offline_keeps_lastStreamId (d : Dispatcher) (cfg : ConfigChannelEntry)
    (st : ChannelState) (rid : String) :
    (update d cfg st .offline rid).state.lastStreamId = st.lastStreamId ∧
    (update d cfg st .offline rid).state.lastStreamTitle = st.lastStreamTitle :=
  ⟨offlineLoop_lastId st.groups st, offlineLoop_lastTitle st.groups st⟩

/-- C8, counterexample.  `fulfillWithTimeLimit` races the update against
a timer but `Promise.race` never cancels the losing task: a cycle that
exceeds the budget still performs its in-place mutations and its own
`statusDb.write()` calls.  Concretely, a full fan-out taking 20 s under a
15 s budget reports the timeout yet leaves the state changed and one
snapshot written — the claim says the state is left exactly as it was
with nothing persisted. -/
theorem c8_counterexample :
    (fulfillWithTimeLimit 15000 20000
        (update dEx ⟨[200], [100]⟩ defaultState (.online "s" "T" "u") "r")).result
      = Except.error "Task timeout!" ∧
    (fulfillWithTimeLimit 15000 20000
        (update dEx ⟨[200], [100]⟩ defaultState (.online "s" "T" "u") "r")).effects.state
      ≠ defaultState ∧
    (fulfillWithTimeLimit 15000 20000
        (update dEx ⟨[200], [100]⟩ defaultState (.online "s" "T" "u") "r")).effects.writes
      ≠ [] := by
  refine ⟨by decide, by decide, by decide⟩

/-- C8, amended: when the budget expires the caller of
`fulfillWithTimeLimit` observes a timeout failure for that entity only,
but the timed-out cycle is not cancelled or rolled back: every mutation
and write it performs still takes effect. -/
theorem c8_timeout_no_rollback (timeLimit duration : Nat) (d : Dispatcher)
    (cfg : ConfigChannelEntry) (st : ChannelState) (obs : Observation)
    (rid : String) (h : timeLimit < duration) :
    (fulfillWithTimeLimit timeLimit duration (update d cfg st obs rid)).result
      = Except.error "Task timeout!" ∧
    (fulfillWithTimeLimit timeLimit duration (update d cfg st obs rid)).effects
      = update d cfg st obs rid := by
  exact ⟨by simp [fulfillWithTimeLimit, h], rfl⟩

/-- C8 witness: the amended theorem at a 15 s budget and a 20 s cycle. -/
theorem c8_timeout_no_rollback_witness :
    (fulfillWithTimeLimit 15000 20000
        (update dEx ⟨[], [100]⟩ defaultState (.online "s" "T" "u") "r")).result
      = Except.error "Task timeout!" ∧
    (fulfillWithTimeLimit 15000 20000
        (update dEx ⟨[], [100]⟩ defaultState (.online "s" "T" "u") "r")).effects
      = update dEx ⟨[], [100]⟩ defaultState (.online "s" "T" "u") "r" :=
  c8_timeout_no_rollback 15000 20000 dEx ⟨[], [100]⟩ defaultState
    (.online "s" "T" "u") "r" (by decide)

/-- C9, counterexample.  The loop of `updateAll` (lines 241-243) has no
per-entity try/catch: entity "A" timing out makes the awaited
`fulfillWithTimeLimit` rejection escape `updateAll`, so configured
entity "B" is never processed in that sweep — the claim says the same
sweep continues with the next entity. -/
theorem c9_counterexample :
    (updateAll dEx (fun _ => .online "s" "T" "u") (fun _ => "r")
        (fun n => if n = "A" then 20000 else 1)
        [("A", ⟨[2], [1]⟩), ("B", ⟨[4], [3]⟩)] []).processed = ["A"] ∧
    (updateAll dEx (fun _ => .online "s" "T" "u") (fun _ => "r")
        (fun n => if n = "A" then 20000 else 1)
        [("A", ⟨[2], [1]⟩), ("B", ⟨[4], [3]⟩)] []).ok = false := by
  refine ⟨by decide, by decide⟩

/-- C9, amended: a per-entity failure (here, exceeding the 15 s budget)
is NOT caught inside the sweep: it aborts `updateAll` after the failing
entity, skipping every remaining entity and the end-of-sweep cleanup;
the failing entity's in-memory mutations stay in the database mirror.
The error is caught only by the top-level polling loop's try/catch
(lines 271-276), which logs it and schedules the next sweep normally. -/
theorem c9_sweep_aborts (d : Dispatcher) (obs : String → Observation)
    (rid : String → String) (dur : String → Nat) (name : String)
    (cfg : ConfigChannelEntry) (rest : List (String × ConfigChannelEntry))
    (db : List (String × ChannelState)) (h : 15000 < dur name) :
    updateAll d obs rid dur ((name, cfg) :: rest) db
      = ⟨setDbEntry db name
            (update d cfg ((lookupDb db name).getD defaultState)
              (obs name) (rid name)).state,
         [name], false⟩ := by
  simp [updateAll, updateAllLoop, fulfillWithTimeLimit, h]

/-- C9 witness: the amended theorem on a two-entity configuration where
the first entity exceeds the budget. -/
theorem c9_sweep_aborts_witness :
    updateAll dEx (fun _ => .online "s" "T" "u") (fun _ => "r") (fun _ => 20000)
        [("A", ⟨[2], [1]⟩), ("B", ⟨[4], [3]⟩)] []
      = ⟨setDbEntry [] "A"
            (update dEx ⟨[2], [1]⟩ ((lookupDb [] "A").getD defaultState)
              (.online "s" "T" "u") "r").state,
         ["A"], false⟩ :=
  c9_sweep_aborts dEx (fun _ => .online "s" "T" "u") (fun _ => "r")
    (fun _ => 20000) "A" ⟨[2], [1]⟩ [("B", ⟨[4], [3]⟩)] [] (by decide)

/-- C10: code bug.  The spec and the claim say the delay scheduled
between sweeps is 30 seconds; the top-level loop (line 278) passes
`30 * 10000` milliseconds to setTimeout — 300000 ms, five minutes, not
the 30000 ms the claim states (earlier revisions of this program used
`30 * 1000`). -/
theorem c10_sweep_delay : sweepDelayMs = 300000 ∧ sweepDelayMs ≠ 30 * 1000 := by
  refine ⟨by decide, by decide⟩

end Cerbero
